import Mathlib

/-!
Shallow embedding of `src/utils/predictionEngine.ts` (the NIRF rank
prediction engine) and verification of its specified properties.

JavaScript numbers are modelled as rationals (`ℚ`); the engine only
performs field arithmetic, `Math.min` / `Math.max` / `Math.floor` /
`Math.round` / `Math.abs`, all of which are exact on the rationals.
Rank positions are integers (`ℤ`).  `Record` iteration (`for ... in`,
`Object.entries`) follows insertion order, which for the records of the
source is always `TLR, RPC, GO, OI, PR`.  `Array.prototype.sort` is a
stable sort by the comparator, modelled with `List.insertionSort`
(stable, and any two stable sorts by the same total preorder agree).
The two unchecked element accesses `...sort(...)[0][0]` are modelled by
`List.head?`, so the whole computation returns an `Option`; totality of
the engine is then the statement that it always returns `some`.
-/

namespace PredictionEngine

/-- The five metrics, in the declaration order of the source records
(`interface NIRFInputs` and the `WEIGHTS` / `BASELINES` records). -/
inductive Metric : Type
  | TLR
  | RPC
  | GO
  | OI
  | PR
deriving DecidableEq

/-- `interface NIRFInputs`: five numeric metric values. -/
structure NIRFInputs : Type where
  TLR : ℚ
  RPC : ℚ
  GO : ℚ
  OI : ℚ
  PR : ℚ
deriving DecidableEq

/-- `interface PredictionResult`. -/
structure PredictionResult : Type where
  predicted_score : ℚ
  rank_range_min : ℤ
  rank_range_max : ℤ
  shap_values : Metric → ℚ
  recommendations : List String

/-- `const WEIGHTS`. -/
def WEIGHTS : Metric → ℚ
  | .TLR => 0.35
  | .RPC => 0.30
  | .GO => 0.15
  | .OI => 0.10
  | .PR => 0.10

/-- `const BASELINES`. -/
def BASELINES : Metric → ℚ
  | .TLR => 62.5
  | .RPC => 47.5
  | .GO => 69.0
  | .OI => 57.5
  | .PR => 50.0

/-- Field access `inputs[k]`. -/
def NIRFInputs.get (i : NIRFInputs) : Metric → ℚ
  | .TLR => i.TLR
  | .RPC => i.RPC
  | .GO => i.GO
  | .OI => i.OI
  | .PR => i.PR

/-- Iteration order of `for (const key in WEIGHTS)` and
`Object.entries`: record insertion order. -/
def metricKeys : List Metric := [.TLR, .RPC, .GO, .OI, .PR]

/-- JavaScript `Math.round`: rounds half-way cases up, `⌊x + 1/2⌋`. -/
def jsRound (q : ℚ) : ℤ := ⌊q + 1/2⌋

/-- The metric names as used inside the template strings. -/
def Metric.name : Metric → String
  | .TLR => "TLR"
  | .RPC => "RPC"
  | .GO => "GO"
  | .OI => "OI"
  | .PR => "PR"

/-- `Number.prototype.toFixed(2)` for a nonnegative rational: the
decimal string of the integer nearest to `100 q` (half-way cases toward
the larger integer), with two digits after the point. -/
def toFixed2 (q : ℚ) : String :=
  let n : ℕ := (⌊q * 100 + 1/2⌋).toNat
  toString (n / 100) ++ "." ++ (if n % 100 < 10 then "0" else "") ++ toString (n % 100)

/-- Step 1, the accumulation loop: `for (const key in WEIGHTS) score += inputs[k] * WEIGHTS[k]`. -/
def rawScore (i : NIRFInputs) : ℚ :=
  metricKeys.foldl (fun s k => s + i.get k * WEIGHTS k) 0

/-- Step 1, the clamp: `score = Math.min(100, Math.max(0, score + 2.5))`. -/
def score (i : NIRFInputs) : ℚ := min 100 (max 0 (rawScore i + 2.5))

/-- `const minExpected = 20`. -/
def minExpected : ℚ := 20

/-- `const maxExpected = 95`. -/
def maxExpected : ℚ := 95

/-- `const totalSamples = 1000`. -/
def totalSamples : ℚ := 1000

/-- `const normalized = (score - minExpected) / (maxExpected - minExpected)`. -/
def normalized (i : NIRFInputs) : ℚ := (score i - minExpected) / (maxExpected - minExpected)

/-- `const estimatedRank = Math.max(1, Math.round(totalSamples * (1 - normalized)))`. -/
def estimatedRank (i : NIRFInputs) : ℤ :=
  max 1 (jsRound (totalSamples * (1 - normalized i)))

/-- `const rankMargin = Math.max(5, Math.floor(estimatedRank * 0.12))`. -/
def rankMargin (i : NIRFInputs) : ℤ :=
  max 5 ⌊(estimatedRank i : ℚ) * 0.12⌋

/-- `const rankMin = Math.max(1, estimatedRank - rankMargin)`. -/
def rankMin (i : NIRFInputs) : ℤ := max 1 (estimatedRank i - rankMargin i)

/-- `const rankMax = estimatedRank + rankMargin`. -/
def rankMax (i : NIRFInputs) : ℤ := estimatedRank i + rankMargin i

/-- Step 3: `shapValues[k] = (inputs[k] - BASELINES[k]) * WEIGHTS[k]`. -/
def shapValues (i : NIRFInputs) (k : Metric) : ℚ := (i.get k - BASELINES k) * WEIGHTS k

/-- `Object.entries(shapValues)`, in insertion order. -/
def shapEntries (i : NIRFInputs) : List (Metric × ℚ) :=
  metricKeys.map fun k => (k, shapValues i k)

/-- Logic A: `Object.entries(shapValues).sort((a, b) => a[1] - b[1])`,
a stable sort ascending by value. -/
def sortedShap (i : NIRFInputs) : List (Metric × ℚ) :=
  List.insertionSort (fun a b => a.2 ≤ b.2) (shapEntries i)

/-- The observation string pushed for a metric with negative impact. -/
def obsString (m : Metric) (v : ℚ) : String :=
  "AI Observation: " ++ m.name ++ " is currently below the benchmark, detracting " ++
    toFixed2 |v| ++ " pts from your score."

/-- Logic A loop: push one observation per entry with negative value,
in sorted order. -/
def recsA (i : NIRFInputs) : List String :=
  (sortedShap i).foldl (fun acc p => if p.2 < 0 then acc ++ [obsString p.1 p.2] else acc) []

/-- Logic B: `impacts[k] = 10 * WEIGHTS[k]` (independent of the inputs). -/
def impacts : List (Metric × ℚ) := metricKeys.map fun k => (k, 10 * WEIGHTS k)

/-- Logic B: `Object.entries(impacts).sort((a, b) => b[1] - a[1])[0][0]`,
the key of the first entry of the stable sort descending by value;
`none` models the `[0][0]` access failing on an empty array. -/
def bestFeat? : Option Metric :=
  (List.insertionSort (fun a b : Metric × ℚ => b.2 ≤ a.2) impacts).head?.map Prod.fst

/-- The Logic B recommendation string. -/
def mlString (m : Metric) : String :=
  "ML Recommendation: Improvements in " ++ m.name ++
    " will yield the highest score boost based on model weights."

/-- Logic C: `Object.entries(shapValues).sort((a, b) => Math.abs(b[1]) - Math.abs(a[1]))[0][0]`. -/
def topImportance? (i : NIRFInputs) : Option Metric :=
  (List.insertionSort (fun a b : Metric × ℚ => |b.2| ≤ |a.2|) (shapEntries i)).head?.map Prod.fst

/-- The Logic C recommendation string. -/
def criticalString (m : Metric) : String :=
  "Critical Area: " ++ m.name ++
    " currently has the most significant impact on your profile variance."

/-- `export async function predictStatic(inputs)`: the whole engine.
The recommendation list is Logic A's pushes, then the Logic B push, then
the Logic C push, then `.slice(0, 5)`. -/
def predictStatic (inputs : NIRFInputs) : Option PredictionResult :=
  match bestFeat?, topImportance? inputs with
  | some bf, some ti =>
      some
        { predicted_score := score inputs
          rank_range_min := rankMin inputs
          rank_range_max := rankMax inputs
          shap_values := shapValues inputs
          recommendations :=
            ((recsA inputs ++ [mlString bf]) ++ [criticalString ti]).take 5 }
  | _, _ => none

/-! ### Helper lemmas -/

instance : IsTotal (Metric × ℚ) fun a b => a.2 ≤ b.2 :=
  ⟨fun a b => le_total a.2 b.2⟩

instance : IsTrans (Metric × ℚ) fun a b => a.2 ≤ b.2 :=
  ⟨fun _ _ _ h h' => le_trans h h'⟩

lemma rawScore_eq (i : NIRFInputs) :
    rawScore i = i.TLR * 0.35 + i.RPC * 0.30 + i.GO * 0.15 + i.OI * 0.10 + i.PR * 0.10 := by
  simp [rawScore, metricKeys, NIRFInputs.get, WEIGHTS]

lemma bestFeat_eq : bestFeat? = some Metric.TLR := by
  norm_num [bestFeat?, impacts, metricKeys, WEIGHTS, List.insertionSort, List.orderedInsert]

lemma exists_topImportance (i : NIRFInputs) : ∃ ti, topImportance? i = some ti := by
  have hl : (List.insertionSort (fun a b : Metric × ℚ => |b.2| ≤ |a.2|) (shapEntries i)).length
      = 5 := by
    rw [List.length_insertionSort]
    simp [shapEntries, metricKeys]
  cases h : List.insertionSort (fun a b : Metric × ℚ => |b.2| ≤ |a.2|) (shapEntries i) with
  | nil => rw [h] at hl; simp at hl
  | cons a l => exact ⟨a.1, by unfold topImportance?; rw [h]; rfl⟩

lemma predictStatic_eq (i : NIRFInputs) (ti : Metric) (h : topImportance? i = some ti) :
    predictStatic i = some
      { predicted_score := score i
        rank_range_min := rankMin i
        rank_range_max := rankMax i
        shap_values := shapValues i
        recommendations := ((recsA i ++ [mlString Metric.TLR]) ++ [criticalString ti]).take 5 } := by
  unfold predictStatic
  rw [bestFeat_eq, h]

lemma foldl_push_eq {α β : Type} (p : α → Prop) [DecidablePred p] (f : α → β) (l : List α) :
    ∀ acc : List β,
      l.foldl (fun acc a => if p a then acc ++ [f a] else acc) acc
        = acc ++ (l.filter fun a => decide (p a)).map f := by
  induction l with
  | nil => intro acc; simp
  | cons a l ih =>
    intro acc
    by_cases h : p a
    · simp [h, ih]
    · simp [h, ih]

lemma recsA_eq (i : NIRFInputs) :
    recsA i
      = ((sortedShap i).filter fun p => decide (p.2 < 0)).map fun p => obsString p.1 p.2 := by
  have h := foldl_push_eq (fun p : Metric × ℚ => p.2 < 0)
    (fun p => obsString p.1 p.2) (sortedShap i) []
  simpa [recsA] using h

lemma sortedShap_pairwise (i : NIRFInputs) :
    List.Pairwise (fun a b : Metric × ℚ => a.2 ≤ b.2) (sortedShap i) :=
  List.sorted_insertionSort _ _

lemma one_le_estimatedRank (i : NIRFInputs) : 1 ≤ estimatedRank i := by
  unfold estimatedRank; omega

lemma five_le_rankMargin (i : NIRFInputs) : 5 ≤ rankMargin i := by
  unfold rankMargin; omega

lemma rawScore_zero : rawScore ⟨0, 0, 0, 0, 0⟩ = 0 := by
  rw [rawScore_eq]; norm_num

lemma score_zero : score ⟨0, 0, 0, 0, 0⟩ = 5/2 := by
  rw [score, rawScore_zero, show (0 : ℚ) + 2.5 = 5/2 by norm_num,
    max_eq_right (by norm_num : (0:ℚ) ≤ 5/2), min_eq_right (by norm_num : (5/2:ℚ) ≤ 100)]

lemma estimatedRank_zero : estimatedRank ⟨0, 0, 0, 0, 0⟩ = 1233 := by
  unfold estimatedRank jsRound normalized minExpected maxExpected totalSamples
  rw [score_zero, show (1000 : ℚ) * (1 - (5/2 - 20) / (95 - 20)) + 1/2 = 7403/6 by norm_num,
    show ⌊(7403/6 : ℚ)⌋ = 1233 from Int.floor_eq_iff.mpr (by norm_num)]
  omega

lemma rankMargin_zero : rankMargin ⟨0, 0, 0, 0, 0⟩ = 147 := by
  unfold rankMargin
  rw [estimatedRank_zero,
    show ⌊((1233 : ℤ) : ℚ) * 0.12⌋ = 147 from Int.floor_eq_iff.mpr (by norm_num)]
  omega

lemma rankMax_zero : rankMax ⟨0, 0, 0, 0, 0⟩ = 1380 := by
  unfold rankMax
  rw [estimatedRank_zero, rankMargin_zero]
  omega

lemma rawScore_hundred : rawScore ⟨100, 100, 100, 100, 100⟩ = 100 := by
  rw [rawScore_eq]; norm_num

lemma score_hundred : score ⟨100, 100, 100, 100, 100⟩ = 100 := by
  rw [score, rawScore_hundred, show (100 : ℚ) + 2.5 = 205/2 by norm_num,
    max_eq_right (by norm_num : (0:ℚ) ≤ 205/2), min_eq_left (by norm_num : (100:ℚ) ≤ 205/2)]

lemma estimatedRank_hundred : estimatedRank ⟨100, 100, 100, 100, 100⟩ = 1 := by
  unfold estimatedRank jsRound normalized minExpected maxExpected totalSamples
  rw [score_hundred, show (1000 : ℚ) * (1 - (100 - 20) / (95 - 20)) + 1/2 = -397/6 by norm_num,
    show ⌊(-397/6 : ℚ)⌋ = -67 from Int.floor_eq_iff.mpr (by norm_num)]
  omega

lemma rankMargin_hundred : rankMargin ⟨100, 100, 100, 100, 100⟩ = 5 := by
  unfold rankMargin
  rw [estimatedRank_hundred,
    show ⌊((1 : ℤ) : ℚ) * 0.12⌋ = 0 from Int.floor_eq_iff.mpr (by norm_num)]
  omega

lemma rankMin_hundred : rankMin ⟨100, 100, 100, 100, 100⟩ = 1 := by
  unfold rankMin
  rw [estimatedRank_hundred, rankMargin_hundred]
  omega

lemma rankMax_hundred : rankMax ⟨100, 100, 100, 100, 100⟩ = 6 := by
  unfold rankMax
  rw [estimatedRank_hundred, rankMargin_hundred]
  omega

/-! ### Claim theorems -/

/-- C1: for every Profile, `predicted_score` equals the weighted sum of the
five metric values (weights 0.35, 0.30, 0.15, 0.10, 0.10), plus the bias
2.5, clamped into `[0, 100]` (floor at 0, cap at 100); in particular the
predicted score lies in `[0, 100]` for every input. -/
theorem score_weighted_sum_clamped (i : NIRFInputs) :
    ∃ r, predictStatic i = some r ∧
      r.predicted_score
        = min 100 (max 0
            (i.TLR * 0.35 + i.RPC * 0.30 + i.GO * 0.15 + i.OI * 0.10 + i.PR * 0.10 + 2.5)) ∧
      0 ≤ r.predicted_score ∧ r.predicted_score ≤ 100 := by
  obtain ⟨ti, hti⟩ := exists_topImportance i
  refine ⟨_, predictStatic_eq i ti hti, ?_, ?_, ?_⟩
  · show score i = _
    rw [score, rawScore_eq]
  · show (0 : ℚ) ≤ score i
    rw [score]
    exact le_min (by norm_num) (le_max_left _ _)
  · show score i ≤ 100
    rw [score]
    exact min_le_left _ _

/-- C2: for every Profile, the returned `shap_values` entry for each metric
equals `(value − baseline) × weight`, with the fixed baselines
TLR 62.5, RPC 47.5, GO 69.0, OI 57.5, PR 50.0; and `predicted_score` is
computed from the raw weighted sum only — `BASELINES` occurs nowhere in
`rawScore` or `score`, so the baselines influence only the attribution. -/
theorem shap_attribution_formula (i : NIRFInputs) :
    ∃ r, predictStatic i = some r ∧
      r.shap_values Metric.TLR = (i.TLR - 62.5) * 0.35 ∧
      r.shap_values Metric.RPC = (i.RPC - 47.5) * 0.30 ∧
      r.shap_values Metric.GO = (i.GO - 69.0) * 0.15 ∧
      r.shap_values Metric.OI = (i.OI - 57.5) * 0.10 ∧
      r.shap_values Metric.PR = (i.PR - 50.0) * 0.10 ∧
      r.predicted_score = min 100 (max 0 (rawScore i + 2.5)) := by
  obtain ⟨ti, hti⟩ := exists_topImportance i
  exact ⟨_, predictStatic_eq i ti hti, rfl, rfl, rfl, rfl, rfl, rfl⟩

/-- C3: for every Profile, `estimatedRank = max(1, round(1000 × (1 −
(predicted_score − 20) / (95 − 20))))` and `margin = max(5,
floor(0.12 × estimatedRank))`; the result satisfies `rank_range_min =
max(1, estimatedRank − margin)` and `rank_range_max = estimatedRank +
margin`, hence `1 ≤ rank_range_min ≤ estimatedRank ≤ rank_range_max`;
there is no upper clamp of `rank_range_max` against 1000 (at the all-zero
profile it equals 1380 > 1000). -/
theorem rank_interval_formula (i : NIRFInputs) :
    ∃ r, predictStatic i = some r ∧
      estimatedRank i = max 1 (jsRound (1000 * (1 - (r.predicted_score - 20) / (95 - 20)))) ∧
      rankMargin i = max 5 ⌊(estimatedRank i : ℚ) * 0.12⌋ ∧
      r.rank_range_min = max 1 (estimatedRank i - rankMargin i) ∧
      r.rank_range_max = estimatedRank i + rankMargin i ∧
      1 ≤ r.rank_range_min ∧
      r.rank_range_min ≤ estimatedRank i ∧
      estimatedRank i ≤ r.rank_range_max ∧
      ∃ r0, predictStatic ⟨0, 0, 0, 0, 0⟩ = some r0 ∧ 1000 < r0.rank_range_max := by
  obtain ⟨ti, hti⟩ := exists_topImportance i
  have h1 := one_le_estimatedRank i
  have h5 := five_le_rankMargin i
  refine ⟨_, predictStatic_eq i ti hti, rfl, rfl, rfl, rfl, ?_, ?_, ?_, ?_⟩
  · show (1 : ℤ) ≤ max 1 (estimatedRank i - rankMargin i)
    omega
  · show max 1 (estimatedRank i - rankMargin i) ≤ estimatedRank i
    omega
  · show estimatedRank i ≤ estimatedRank i + rankMargin i
    omega
  · obtain ⟨ti0, hti0⟩ := exists_topImportance ⟨0, 0, 0, 0, 0⟩
    refine ⟨_, predictStatic_eq _ ti0 hti0, ?_⟩
    show (1000 : ℤ) < rankMax ⟨0, 0, 0, 0, 0⟩
    rw [rankMax_zero]
    omega

/-- C6: for every Profile, the sum of the five attribution values equals
the raw weighted score `Σ value×weight` minus the fixed weighted baseline
score `Σ baseline×weight`. -/
theorem shap_additivity (i : NIRFInputs) :
    ∃ r, predictStatic i = some r ∧
      (metricKeys.map r.shap_values).sum
        = (i.TLR * 0.35 + i.RPC * 0.30 + i.GO * 0.15 + i.OI * 0.10 + i.PR * 0.10)
          - (62.5 * 0.35 + 47.5 * 0.30 + 69.0 * 0.15 + 57.5 * 0.10 + 50.0 * 0.10) := by
  obtain ⟨ti, hti⟩ := exists_topImportance i
  refine ⟨_, predictStatic_eq i ti hti, ?_⟩
  show (metricKeys.map (shapValues i)).sum = _
  simp [metricKeys, shapValues, NIRFInputs.get, BASELINES, WEIGHTS]
  ring

/-- C4: for every Profile, the recommendations list equals: one
observation string per metric with strictly negative attribution, taken
from the stable sort of the attribution entries in ascending order of
attribution (most negative first, as witnessed by the `Pairwise` fact);
then exactly one Logic B string; then exactly one Logic C string; with
the concatenation truncated to its first 5 entries, so the list has at
most 5 elements. -/
theorem recommendations_structure (i : NIRFInputs) :
    ∃ r ti, predictStatic i = some r ∧ topImportance? i = some ti ∧
      r.recommendations
        = ((((sortedShap i).filter fun p => decide (p.2 < 0)).map fun p => obsString p.1 p.2)
            ++ [mlString Metric.TLR, criticalString ti]).take 5 ∧
      List.Pairwise (fun a b : Metric × ℚ => a.2 ≤ b.2) (sortedShap i) ∧
      r.recommendations.length ≤ 5 := by
  obtain ⟨ti, hti⟩ := exists_topImportance i
  refine ⟨_, ti, predictStatic_eq i ti hti, hti, ?_, sortedShap_pairwise i, ?_⟩
  · show ((recsA i ++ [mlString Metric.TLR]) ++ [criticalString ti]).take 5 = _
    rw [recsA_eq]
    simp
  · show (((recsA i ++ [mlString Metric.TLR]) ++ [criticalString ti]).take 5).length ≤ 5
    simp [List.length_take]

/-- C5 (amended): writing `E = estimatedRank` and `m = ⌊0.12·E⌋`, the
interval width `rank_range_max − rank_range_min` is always at least 5;
it is at least 10 whenever `E ≥ 6`; when `m > 5` it equals `2·m`; but
when `E ≤ 5` the lower clamp of `rank_range_min` at 1 makes the width
`E + 4 ∈ [5, 9]`, so the claimed unconditional floor of 10 fails there. -/
theorem rank_width_amended (i : NIRFInputs) :
    ∃ r, predictStatic i = some r ∧
      5 ≤ r.rank_range_max - r.rank_range_min ∧
      (6 ≤ estimatedRank i → 10 ≤ r.rank_range_max - r.rank_range_min) ∧
      (5 < ⌊(estimatedRank i : ℚ) * 0.12⌋ →
        r.rank_range_max - r.rank_range_min = 2 * ⌊(estimatedRank i : ℚ) * 0.12⌋) ∧
      (estimatedRank i ≤ 5 →
        r.rank_range_max - r.rank_range_min = estimatedRank i + 4) := by
  obtain ⟨ti, hti⟩ := exists_topImportance i
  have h1 := one_le_estimatedRank i
  have h5 := five_le_rankMargin i
  refine ⟨_, predictStatic_eq i ti hti, ?_, ?_, ?_, ?_⟩
  · show (5 : ℤ) ≤ (estimatedRank i + rankMargin i) - max 1 (estimatedRank i - rankMargin i)
    omega
  · intro h6
    show (10 : ℤ) ≤ (estimatedRank i + rankMargin i) - max 1 (estimatedRank i - rankMargin i)
    omega
  · intro hm
    have hm6 : (6 : ℤ) ≤ ⌊(estimatedRank i : ℚ) * 0.12⌋ := hm
    have hq6 : ((6 : ℤ) : ℚ) ≤ (estimatedRank i : ℚ) * 0.12 := Int.le_floor.mp hm6
    have hfl : ((⌊(estimatedRank i : ℚ) * 0.12⌋ : ℤ) : ℚ) ≤ (estimatedRank i : ℚ) * 0.12 :=
      Int.floor_le _
    have hE50 : (50 : ℚ) ≤ (estimatedRank i : ℚ) := by
      push_cast at hq6
      nlinarith [hq6]
    have hmE : ⌊(estimatedRank i : ℚ) * 0.12⌋ ≤ estimatedRank i - 1 := by
      have hq : ((⌊(estimatedRank i : ℚ) * 0.12⌋ : ℤ) : ℚ) ≤ (estimatedRank i : ℚ) - 1 := by
        nlinarith [hfl, hE50]
      exact_mod_cast hq
    have hMm : rankMargin i = ⌊(estimatedRank i : ℚ) * 0.12⌋ := by
      unfold rankMargin
      omega
    show (estimatedRank i + rankMargin i) - max 1 (estimatedRank i - rankMargin i) = _
    rw [hMm]
    omega
  · intro hE5
    have hm0 : ⌊(estimatedRank i : ℚ) * 0.12⌋ = 0 := by
      have hq1 : (1 : ℚ) ≤ (estimatedRank i : ℚ) := by exact_mod_cast h1
      have hq5 : (estimatedRank i : ℚ) ≤ 5 := by exact_mod_cast hE5
      refine Int.floor_eq_iff.mpr ⟨?_, ?_⟩
      · push_cast
        nlinarith [hq1]
      · push_cast
        nlinarith [hq5]
    have hMm : rankMargin i = 5 := by
      unfold rankMargin
      omega
    show (estimatedRank i + rankMargin i) - max 1 (estimatedRank i - rankMargin i)
      = estimatedRank i + 4
    rw [hMm]
    omega

/-- C5 (witness): at the all-zero profile the estimated rank is 1233, so
the hypotheses of the amended width bounds are satisfiable and the width
is at least 10 there. -/
theorem rank_width_amended_witness :
    ∃ r, predictStatic ⟨0, 0, 0, 0, 0⟩ = some r ∧ 10 ≤ r.rank_range_max - r.rank_range_min := by
  obtain ⟨r, hr, -, h6, -, -⟩ := rank_width_amended ⟨0, 0, 0, 0, 0⟩
  refine ⟨r, hr, h6 ?_⟩
  rw [estimatedRank_zero]
  omega

/-- C5 (counterexample): at the profile with all five metrics equal to
100, the estimated rank is 1, 12% of it does not exceed 5 (in the floor
reading and in the exact reading alike), yet the interval is `[1, 6]` of
width 5, refuting the claimed floor `rank_range_max − rank_range_min ≥ 10`. -/
theorem margin_floor_counterexample :
    ∃ r, predictStatic ⟨100, 100, 100, 100, 100⟩ = some r ∧
      ¬ 5 < ⌊(estimatedRank ⟨100, 100, 100, 100, 100⟩ : ℚ) * 0.12⌋ ∧
      ¬ 5 < (estimatedRank ⟨100, 100, 100, 100, 100⟩ : ℚ) * 0.12 ∧
      r.rank_range_max - r.rank_range_min = 5 ∧
      ¬ 10 ≤ r.rank_range_max - r.rank_range_min := by
  obtain ⟨ti, hti⟩ := exists_topImportance ⟨100, 100, 100, 100, 100⟩
  refine ⟨_, predictStatic_eq _ ti hti, ?_, ?_, ?_, ?_⟩
  · rw [estimatedRank_hundred,
      show ⌊((1 : ℤ) : ℚ) * 0.12⌋ = 0 from Int.floor_eq_iff.mpr (by norm_num)]
    omega
  · rw [estimatedRank_hundred]
    norm_num
  · show rankMax ⟨100, 100, 100, 100, 100⟩ - rankMin ⟨100, 100, 100, 100, 100⟩ = 5
    rw [rankMax_hundred, rankMin_hundred]
    omega
  · show ¬ (10 : ℤ) ≤ rankMax ⟨100, 100, 100, 100, 100⟩ - rankMin ⟨100, 100, 100, 100, 100⟩
    rw [rankMax_hundred, rankMin_hundred]
    omega

/-- C7: the computation is deterministic — two invocations on field-wise
identical Profiles return identical results, and in particular any two
successful results agree in every field (`predicted_score`, the rank
bounds, `shap_values`, `recommendations`). -/
theorem predictStatic_deterministic (i j : NIRFInputs)
    (h1 : i.TLR = j.TLR) (h2 : i.RPC = j.RPC) (h3 : i.GO = j.GO)
    (h4 : i.OI = j.OI) (h5 : i.PR = j.PR) :
    predictStatic i = predictStatic j ∧
    ∀ r1 r2, predictStatic i = some r1 → predictStatic j = some r2 →
      r1.predicted_score = r2.predicted_score ∧
      r1.rank_range_min = r2.rank_range_min ∧
      r1.rank_range_max = r2.rank_range_max ∧
      r1.shap_values = r2.shap_values ∧
      r1.recommendations = r2.recommendations := by
  obtain ⟨a, b, c, d, e⟩ := i
  obtain ⟨a', b', c', d', e'⟩ := j
  dsimp at h1 h2 h3 h4 h5
  subst h1; subst h2; subst h3; subst h4; subst h5
  refine ⟨rfl, ?_⟩
  intro r1 r2 hr1 hr2
  rw [hr1] at hr2
  injection hr2 with h
  subst h
  exact ⟨rfl, rfl, rfl, rfl, rfl⟩

/-- C7 (witness): the determinism theorem applied at a concrete profile. -/
theorem predictStatic_deterministic_witness :
    predictStatic ⟨60, 40, 70, 55, 20⟩ = predictStatic ⟨60, 40, 70, 55, 20⟩ :=
  (predictStatic_deterministic ⟨60, 40, 70, 55, 20⟩ ⟨60, 40, 70, 55, 20⟩
    rfl rfl rfl rfl rfl).1

/-- C8: the engine is total over all numeric inputs — `predictStatic`
always returns `some`; in particular the two sorted entry lists behind
the `[0][0]` accesses of Logic B and Logic C are never empty, since the
five-metric entry lists always have five entries. -/
theorem predictStatic_total (i : NIRFInputs) :
    ∃ r, predictStatic i = some r ∧
      bestFeat?.isSome = true ∧
      (topImportance? i).isSome = true ∧
      shapEntries i ≠ [] ∧
      sortedShap i ≠ [] := by
  obtain ⟨ti, hti⟩ := exists_topImportance i
  refine ⟨_, predictStatic_eq i ti hti, ?_, ?_, ?_, ?_⟩
  · rw [bestFeat_eq]; rfl
  · rw [hti]; rfl
  · simp [shapEntries, metricKeys]
  · intro h
    have hl : (sortedShap i).length = 5 := by
      unfold sortedShap
      rw [List.length_insertionSort]
      simp [shapEntries, metricKeys]
    rw [h] at hl
    simp at hl

/-- C9: the Logic B recommendation always names TLR — the hypothetical
gains `10 × weight` do not depend on the inputs, TLR's weight 0.35 is the
strict maximum of the five weights, so `bestFeat` is the constant
`Metric.TLR`, and for every Profile the Logic B slot of the
recommendation list is the TLR string. -/
theorem passB_names_TLR :
    bestFeat? = some Metric.TLR ∧
    (∀ m : Metric, m ≠ Metric.TLR → WEIGHTS m < WEIGHTS Metric.TLR) ∧
    ∀ i : NIRFInputs, ∃ r ti, predictStatic i = some r ∧ topImportance? i = some ti ∧
      r.recommendations = ((recsA i ++ [mlString Metric.TLR]) ++ [criticalString ti]).take 5 := by
  refine ⟨bestFeat_eq, ?_, ?_⟩
  · intro m hm
    cases m with
    | TLR => exact absurd rfl hm
    | RPC => norm_num [WEIGHTS]
    | GO => norm_num [WEIGHTS]
    | OI => norm_num [WEIGHTS]
    | PR => norm_num [WEIGHTS]
  · intro i
    obtain ⟨ti, hti⟩ := exists_topImportance i
    exact ⟨_, ti, predictStatic_eq i ti hti, hti, rfl⟩

/-- C9 (witness): the strict-maximum hypothesis discharged at the
concrete metric RPC. -/
theorem passB_names_TLR_witness : WEIGHTS Metric.RPC < WEIGHTS Metric.TLR :=
  passB_names_TLR.2.1 Metric.RPC (by decide)

/-- C10: for every Profile the recommendations list has between 2 and 5
entries — in particular it is never empty. -/
theorem recommendations_length_bounds (i : NIRFInputs) :
    ∃ r, predictStatic i = some r ∧
      2 ≤ r.recommendations.length ∧ r.recommendations.length ≤ 5 := by
  obtain ⟨ti, hti⟩ := exists_topImportance i
  refine ⟨_, predictStatic_eq i ti hti, ?_, ?_⟩
  · show 2 ≤ (((recsA i ++ [mlString Metric.TLR]) ++ [criticalString ti]).take 5).length
    simp [List.length_take]
  · show (((recsA i ++ [mlString Metric.TLR]) ++ [criticalString ti]).take 5).length ≤ 5
    simp [List.length_take]

end PredictionEngine
